import Mathlib

/-!
Verification development for the ph-tax-app rules engine.

This file gives a shallow embedding of the deterministic tax-rule pipeline:
the five rule modules (regime determination, tax computation, filing
obligations, deadline calculation, risk assessment) and the orchestrator
`runAssessment`.  JavaScript numbers are modelled as exact rationals,
JS `Math.round` as the floor of x + 1/2 (round half toward positive
infinity), optional fields as `Option`, and enum values as inductive types.
-/

unseal Rat.add Rat.sub Rat.mul Rat.inv

namespace PhTax

/-- JS Math.round semantics: round half toward positive infinity. -/
def jsRound (x : ℚ) : ℤ := ⌊x + 1/2⌋

/-- Two-decimal rounding as written in the source: Math.round (x * 100) / 100. -/
def round2 (x : ℚ) : ℚ := (jsRound (x * 100) : ℚ) / 100

/-- User type classification (enum UserType). -/
inductive UserType where
  | FREELANCER
  | SELF_EMPLOYED
  | MICRO_SMALL_BUSINESS
  | MIXED_INCOME
deriving DecidableEq, Repr

/-- BIR registration status (enum RegistrationStatus). -/
inductive RegistrationStatus where
  | NOT_REGISTERED
  | PENDING_REGISTRATION
  | REGISTERED
  | NEEDS_UPDATE
deriving DecidableEq, Repr

/-- Tax regime selection (enum TaxRegime). -/
inductive TaxRegime where
  | GRADUATED_RATES
  | EIGHT_PERCENT_FLAT
  | UNDETERMINED
deriving DecidableEq, Repr

/-- Income type (enum IncomeType). -/
inductive IncomeType where
  | FREELANCE_SERVICE
  | BUSINESS_SALES
  | EMPLOYMENT
  | RENTAL
  | ROYALTIES
  | OTHER
deriving DecidableEq, Repr

/-- Income frequency (enum IncomeFrequency). -/
inductive IncomeFrequency where
  | ONE_TIME
  | MONTHLY
  | QUARTERLY
  | ANNUAL
  | IRREGULAR
deriving DecidableEq, Repr

/-- Expense category (enum ExpenseCategory). -/
inductive ExpenseCategory where
  | RENT
  | UTILITIES
  | SUPPLIES
  | PROFESSIONAL_FEES
  | TRANSPORTATION
  | COMMUNICATION
  | DEPRECIATION
  | SALARIES_WAGES
  | TAXES_LICENSES
  | INSURANCE
  | INTEREST_EXPENSE
  | REPAIRS_MAINTENANCE
  | ADVERTISING
  | BAD_DEBTS
  | OTHER_DEDUCTIBLE
deriving DecidableEq, Repr

/-- Risk severity (enum RiskLevel). -/
inductive RiskLevel where
  | NONE
  | INFO
  | WARNING
  | CPA_REVIEW_REQUIRED
deriving DecidableEq, Repr

/-- interface IncomeStreamData. -/
structure IncomeStreamData where
  id : String
  incomeType : IncomeType
  grossAmount : ℚ
  frequency : IncomeFrequency
  hasWithholding : Bool
  withheldAmount : Option ℚ := none
  withholdingRate : Option ℚ := none
  form2307Received : Bool
deriving DecidableEq, Repr

/-- interface ExpenseData. -/
structure ExpenseData where
  id : String
  category : ExpenseCategory
  amount : ℚ
  isDeductible : Bool
deriving DecidableEq, Repr

/-- interface RuleInput.  `selectedRegime` and `tin` are optional. -/
structure RuleInput where
  taxYear : ℤ
  userType : UserType
  registrationStatus : RegistrationStatus
  hasEmploymentIncome : Bool
  incomeStreams : List IncomeStreamData
  expenses : List ExpenseData
  selectedRegime : Option TaxRegime := none
  tin : Option String := none
deriving DecidableEq, Repr

/-- Quarterly payment breakdown (ComputedValues.quarterlyPayments). -/
structure QuarterlyPayments where
  q1 : ℚ
  q2 : ℚ
  q3 : ℚ
  annual : ℚ
deriving DecidableEq, Repr

/-- interface ComputedValues. -/
structure ComputedValues where
  grossIncome : ℚ
  businessIncome : ℚ
  employmentIncome : ℚ
  totalDeductions : ℚ
  taxableIncome : ℚ
  estimatedTax : ℚ
  creditsApplied : ℚ
  netTaxPayable : ℚ
  quarterlyPayments : QuarterlyPayments
deriving DecidableEq, Repr

/-- interface Obligation. -/
structure Obligation where
  id : String
  formCode : String
  formName : String
  description : String
  frequency : String
  isApplicable : Bool
  ruleModuleId : String
  notes : String
deriving DecidableEq, Repr

/-- interface Deadline. -/
structure Deadline where
  id : String
  obligationId : String
  formCode : String
  description : String
  dueDate : String
  period : String
  reminderDays : List ℕ
  penaltyInfo : String
deriving DecidableEq, Repr

/-- interface RiskFlag. -/
structure RiskFlag where
  id : String
  level : RiskLevel
  code : String
  title : String
  description : String
  ruleModuleId : String
  recommendedAction : String
  affectedFields : List String
deriving DecidableEq, Repr

namespace TAX_THRESHOLDS

/-- VAT registration threshold. -/
def VAT_THRESHOLD : ℚ := 3000000

/-- 8% flat tax gross-receipts eligibility limit. -/
def EIGHT_PERCENT_GROSS_LIMIT : ℚ := 3000000

/-- Personal exemption: the first 250,000 is tax-free. -/
def PERSONAL_EXEMPTION_THRESHOLD : ℚ := 250000

/-- 8% flat tax rate. -/
def EIGHT_PERCENT_RATE : ℚ := 8 / 100

/-- Optional standard deduction rate (40% of gross). -/
def OSD_RATE : ℚ := 40 / 100

end TAX_THRESHOLDS

/-- interface TaxBracket; `max = none` models Infinity. -/
structure TaxBracket where
  min : ℚ
  max : Option ℚ
  rate : ℚ
  baseTax : ℚ
deriving DecidableEq, Repr

/-- GRADUATED_TAX_BRACKETS_2023 from src/rules-engine/types/index.ts. -/
def GRADUATED_TAX_BRACKETS_2023 : List TaxBracket :=
  [ { min := 0,       max := some 250000,  rate := 0,        baseTax := 0 },
    { min := 250001,  max := some 400000,  rate := 15 / 100, baseTax := 0 },
    { min := 400001,  max := some 800000,  rate := 20 / 100, baseTax := 22500 },
    { min := 800001,  max := some 2000000, rate := 25 / 100, baseTax := 102500 },
    { min := 2000001, max := some 8000000, rate := 30 / 100, baseTax := 402500 },
    { min := 8000001, max := none,         rate := 35 / 100, baseTax := 2202500 } ]

/-- Test `taxableIncome <= bracket.max` where `none` stands for Infinity. -/
def withinBracketMax (x : ℚ) : Option ℚ → Bool
  | none => true
  | some m => decide (x ≤ m)

/-- The for-loop over the bracket table: first bracket whose max bounds x. -/
def findBracket (x : ℚ) : List TaxBracket → Option TaxBracket
  | [] => none
  | b :: bs => if withinBracketMax x b.max then some b else findBracket x bs

namespace TaxComputationRule

/-- Result of compute8PercentTax: the object { tax, taxableAmount }. -/
structure EightPercentResult where
  tax : ℚ
  taxableAmount : ℚ
deriving DecidableEq, Repr

/-- Result of computeGraduatedTax: { tax, taxableIncome, deductionMethod }. -/
structure GraduatedResult where
  tax : ℚ
  taxableIncome : ℚ
  deductionMethod : String
deriving DecidableEq, Repr

/-- TaxComputationRule.calculateGrossIncome: sum over all income streams. -/
def calculateGrossIncome (input : RuleInput) : ℚ :=
  (input.incomeStreams.map (fun s => s.grossAmount)).sum

/-- TaxComputationRule.calculateBusinessIncome: non-employment streams. -/
def calculateBusinessIncome (input : RuleInput) : ℚ :=
  ((input.incomeStreams.filter
      (fun s => s.incomeType ≠ IncomeType.EMPLOYMENT)).map (fun s => s.grossAmount)).sum

/-- TaxComputationRule.calculateEmploymentIncome: employment streams only. -/
def calculateEmploymentIncome (input : RuleInput) : ℚ :=
  ((input.incomeStreams.filter
      (fun s => s.incomeType = IncomeType.EMPLOYMENT)).map (fun s => s.grossAmount)).sum

/-- TaxComputationRule.calculateTotalDeductions: deductible expenses. -/
def calculateTotalDeductions (input : RuleInput) : ℚ :=
  ((input.expenses.filter (fun e => e.isDeductible)).map (fun e => e.amount)).sum

/-- JS truthiness of an optional numeric field: defined and nonzero. -/
def optTruthy : Option ℚ → Bool
  | none => false
  | some v => decide (v ≠ 0)

/-- TaxComputationRule.calculateWithholdingCredits: streams with
`hasWithholding && withheldAmount` (JS truthiness), summing `withheldAmount || 0`. -/
def calculateWithholdingCredits (input : RuleInput) : ℚ :=
  ((input.incomeStreams.filter
      (fun s => s.hasWithholding && optTruthy s.withheldAmount)).map
      (fun s => s.withheldAmount.getD 0)).sum

/-- TaxComputationRule.compute8PercentTax. -/
def compute8PercentTax (businessIncome : ℚ) : EightPercentResult :=
  let taxableAmount := max 0 (businessIncome - TAX_THRESHOLDS.PERSONAL_EXEMPTION_THRESHOLD)
  let tax := taxableAmount * TAX_THRESHOLDS.EIGHT_PERCENT_RATE
  { tax := tax, taxableAmount := taxableAmount }

/-- TaxComputationRule.applyGraduatedRates: loop over the bracket table with
the (unreachable) highest-bracket fallback after the loop. -/
def applyGraduatedRates (taxableIncome : ℚ) : ℚ :=
  match findBracket taxableIncome GRADUATED_TAX_BRACKETS_2023 with
  | some bracket => bracket.baseTax + max 0 (taxableIncome - bracket.min) * bracket.rate
  | none =>
      let lastBracket := GRADUATED_TAX_BRACKETS_2023.getLast (by decide)
      lastBracket.baseTax + (taxableIncome - lastBracket.min) * lastBracket.rate

/-- TaxComputationRule.computeGraduatedTax. -/
def computeGraduatedTax (businessIncome actualDeductions _employmentIncome : ℚ) :
    GraduatedResult :=
  let osd := businessIncome * TAX_THRESHOLDS.OSD_RATE
  let useOSD : Bool := decide (osd ≥ actualDeductions)
  let deduction := if useOSD then osd else actualDeductions
  let deductionMethod :=
    if useOSD then "Optional Standard Deduction (40%)" else "Itemized Deductions"
  let taxableBusinessIncome := max 0 (businessIncome - deduction)
  let totalTaxableIncome := taxableBusinessIncome
  let tax := applyGraduatedRates totalTaxableIncome
  { tax := tax, taxableIncome := totalTaxableIncome, deductionMethod := deductionMethod }

/-- TaxComputationRule.calculateQuarterlyPayments.  Note that the annual
true-up uses the unrounded quarterly amount. -/
def calculateQuarterlyPayments (annualTax : ℚ) (_regime : Option TaxRegime) :
    QuarterlyPayments :=
  let quarterlyAmount := annualTax / 4
  { q1 := round2 quarterlyAmount,
    q2 := round2 quarterlyAmount,
    q3 := round2 quarterlyAmount,
    annual := round2 (annualTax - quarterlyAmount * 3) }

/-- TaxComputationRule.execute. -/
def execute (input : RuleInput) : ComputedValues :=
  let grossIncome := calculateGrossIncome input
  let businessIncome := calculateBusinessIncome input
  let employmentIncome := calculateEmploymentIncome input
  let totalDeductions := calculateTotalDeductions input
  let creditsApplied := calculateWithholdingCredits input
  let taxPair :=
    if input.selectedRegime = some TaxRegime.EIGHT_PERCENT_FLAT then
      let result := compute8PercentTax businessIncome
      (result.tax, result.taxableAmount)
    else
      let result := computeGraduatedTax businessIncome totalDeductions employmentIncome
      (result.tax, result.taxableIncome)
  let estimatedTax := taxPair.1
  let taxableIncome := taxPair.2
  let netTaxPayable := max 0 (estimatedTax - creditsApplied)
  let quarterlyPayments := calculateQuarterlyPayments netTaxPayable input.selectedRegime
  { grossIncome := grossIncome,
    businessIncome := businessIncome,
    employmentIncome := employmentIncome,
    totalDeductions := totalDeductions,
    taxableIncome := taxableIncome,
    estimatedTax := estimatedTax,
    creditsApplied := creditsApplied,
    netTaxPayable := netTaxPayable,
    quarterlyPayments := quarterlyPayments }

end TaxComputationRule

/-- Nested comparison entry in RegimeComparisonResult. -/
structure RegimeOption where
  estimatedTax : ℚ
  effectiveRate : ℚ
  pros : List String
  cons : List String
deriving DecidableEq, Repr

/-- The comparison field of RegimeComparisonResult. -/
structure RegimeComparison where
  eightPercent : RegimeOption
  graduatedRates : RegimeOption
deriving DecidableEq, Repr

/-- interface RegimeComparisonResult. -/
structure RegimeComparisonResult where
  eligible8Percent : Bool
  eligibilityReason : String
  comparison : RegimeComparison
  recommendation : TaxRegime
  recommendationReason : String
  ruleModuleId : String
deriving DecidableEq, Repr

namespace RegimeDeterminationRule

/-- Module identifier of RegimeDeterminationRule. -/
def moduleId : String := "REGIME_DETERMINATION"

/-- Module version of RegimeDeterminationRule. -/
def moduleVersion : String := "1.0.0"

/-- Return type of checkEligibility: { isEligible, reason }. -/
structure Eligibility where
  isEligible : Bool
  reason : String
deriving DecidableEq, Repr

/-- RegimeDeterminationRule.calculateBusinessIncome (non-employment streams). -/
def calculateBusinessIncome (input : RuleInput) : ℚ :=
  ((input.incomeStreams.filter
      (fun s => s.incomeType ≠ IncomeType.EMPLOYMENT)).map (fun s => s.grossAmount)).sum

/-- RegimeDeterminationRule.calculateTotalDeductions (deductible expenses). -/
def calculateTotalDeductions (input : RuleInput) : ℚ :=
  ((input.expenses.filter (fun e => e.isDeductible)).map (fun e => e.amount)).sum

/-- The eligibleUserTypes array in checkEligibility.  Note that the source
lists only these three types; MIXED_INCOME is absent. -/
def eligibleUserTypes : List UserType :=
  [UserType.FREELANCER, UserType.SELF_EMPLOYED, UserType.MICRO_SMALL_BUSINESS]

/-- RegimeDeterminationRule.checkEligibility. -/
def checkEligibility (input : RuleInput) : Eligibility :=
  let businessIncome := calculateBusinessIncome input
  if input.userType ∉ eligibleUserTypes then
    { isEligible := false,
      reason :=
        "Only self-employed individuals, freelancers, and sole proprietors can elect 8% tax." }
  else if businessIncome > TAX_THRESHOLDS.VAT_THRESHOLD then
    { isEligible := false,
      reason :=
        "Gross receipts/sales exceed ₱3,000,000. You are VAT-registered and cannot use 8% flat tax." }
  else if input.userType = UserType.MIXED_INCOME ∨ input.hasEmploymentIncome then
    { isEligible := true,
      reason :=
        "Eligible for 8% flat tax on business/professional income. Employment income will be taxed separately through withholding." }
  else
    { isEligible := true,
      reason := "You meet all requirements for 8% flat tax on gross sales/receipts." }

/-- RegimeDeterminationRule.calculate8PercentTax. -/
def calculate8PercentTax (businessIncome : ℚ) : ℚ :=
  max 0 (businessIncome - TAX_THRESHOLDS.PERSONAL_EXEMPTION_THRESHOLD) *
    TAX_THRESHOLDS.EIGHT_PERCENT_RATE

/-- RegimeDeterminationRule.applyGraduatedRates (same body as in
TaxComputationRule, duplicated in the source). -/
def applyGraduatedRates (taxableIncome : ℚ) : ℚ :=
  match findBracket taxableIncome GRADUATED_TAX_BRACKETS_2023 with
  | some bracket => bracket.baseTax + max 0 (taxableIncome - bracket.min) * bracket.rate
  | none =>
      let lastBracket := GRADUATED_TAX_BRACKETS_2023.getLast (by decide)
      lastBracket.baseTax + (taxableIncome - lastBracket.min) * lastBracket.rate

/-- RegimeDeterminationRule.calculateGraduatedTax. -/
def calculateGraduatedTax (businessIncome actualDeductions : ℚ) : ℚ :=
  let osd := businessIncome * TAX_THRESHOLDS.OSD_RATE
  let bestDeduction := max actualDeductions osd
  let taxableIncome := max 0 (businessIncome - bestDeduction)
  applyGraduatedRates taxableIncome

/-- JS evaluation of `totalDeductions / businessIncome > 0.4`: division by
zero yields Infinity (numerator positive, comparison true), NaN (numerator
zero, comparison false) or negative Infinity (comparison false). -/
def deductionsExceedForty (totalDeductions businessIncome : ℚ) : Bool :=
  if businessIncome = 0 then decide (0 < totalDeductions)
  else decide (totalDeductions / businessIncome > 40 / 100)

/-- RegimeDeterminationRule.execute. -/
def execute (input : RuleInput) : RegimeComparisonResult :=
  let eligible8Percent := checkEligibility input
  let businessIncome := calculateBusinessIncome input
  let totalDeductions := calculateTotalDeductions input
  let eightPercentTax := calculate8PercentTax businessIncome
  let graduatedTax := calculateGraduatedTax businessIncome totalDeductions
  let comparison : RegimeComparison :=
    { eightPercent :=
        { estimatedTax := if eligible8Percent.isEligible then eightPercentTax else 0,
          effectiveRate := if businessIncome > 0 then eightPercentTax / businessIncome else 0,
          pros :=
            [ "Simpler computation - just 8% of gross receipts above ₱250,000",
              "No need to track itemized deductions",
              "Less bookkeeping requirements",
              "Replaces percentage tax and income tax" ],
          cons :=
            [ "Cannot claim business expenses as deductions",
              "May pay more tax if expenses are high (above 40% of gross)",
              "Fixed rate regardless of actual profitability",
              "Not available if gross exceeds ₱3,000,000" ] },
      graduatedRates :=
        { estimatedTax := graduatedTax,
          effectiveRate := if businessIncome > 0 then graduatedTax / businessIncome else 0,
          pros :=
            [ "Can deduct actual business expenses",
              "May result in lower tax if expenses are high",
              "Progressive rates favor lower income",
              "More accurate reflection of actual profit" ],
          cons :=
            [ "Requires detailed expense tracking with receipts",
              "More complex tax computation",
              "Subject to both income tax AND percentage tax (3%)",
              "Higher compliance burden" ] } }
  let recommendationPair :=
    if !eligible8Percent.isEligible then
      (TaxRegime.GRADUATED_RATES, "8% option not available: " ++ eligible8Percent.reason)
    else if deductionsExceedForty totalDeductions businessIncome then
      (TaxRegime.GRADUATED_RATES,
        "Your expenses appear high relative to income. Graduated rates with itemized deductions may result in lower tax.")
    else if eightPercentTax < graduatedTax then
      (TaxRegime.EIGHT_PERCENT_FLAT,
        "Based on your income and expenses, 8% flat tax would result in lower tax liability with simpler compliance.")
    else
      (TaxRegime.GRADUATED_RATES,
        "Based on your income and deductible expenses, graduated rates would result in lower tax liability.")
  { eligible8Percent := eligible8Percent.isEligible,
    eligibilityReason := eligible8Percent.reason,
    comparison := comparison,
    recommendation := recommendationPair.1,
    recommendationReason := recommendationPair.2,
    ruleModuleId := moduleId }

end RegimeDeterminationRule

namespace FilingObligationsRule

/-- Module identifier of FilingObligationsRule. -/
def moduleId : String := "FILING_OBLIGATIONS"

/-- Module version of FilingObligationsRule. -/
def moduleVersion : String := "1.0.0"

/-- FilingObligationsRule.requiresQuarterlyIncomeTax. -/
def requiresQuarterlyIncomeTax (input : RuleInput) : Bool :=
  input.userType ∈
    [UserType.FREELANCER, UserType.SELF_EMPLOYED, UserType.MICRO_SMALL_BUSINESS,
     UserType.MIXED_INCOME]

/-- FilingObligationsRule.requiresPercentageTax. -/
def requiresPercentageTax (input : RuleInput) : Bool :=
  if input.selectedRegime = some TaxRegime.EIGHT_PERCENT_FLAT then false
  else
    (input.userType ∈
        [UserType.FREELANCER, UserType.SELF_EMPLOYED, UserType.MICRO_SMALL_BUSINESS] : Bool)
      && (input.selectedRegime = some TaxRegime.GRADUATED_RATES : Bool)

/-- FilingObligationsRule.getAnnualReturnNotes. -/
def getAnnualReturnNotes (input : RuleInput) : String :=
  if input.hasEmploymentIncome then
    "As a mixed-income earner, you must file Form 1701 combining employment and business income. Attach Form 2316 from your employer."
  else if input.selectedRegime = some TaxRegime.EIGHT_PERCENT_FLAT then
    "File annual return reporting total gross receipts. Final tax computation using 8% rate on amounts exceeding ₱250,000."
  else
    "File annual return with final tax computation. Report all income and claim applicable deductions."

/-- Sequential OBL-n identifiers: the counter starts at 1 and advances once
per pushed obligation, so it equals the list position plus one. -/
def numberObligations (l : List Obligation) : List Obligation :=
  l.enum.map (fun p => { p.2 with id := "OBL-" ++ toString (p.1 + 1) })

/-- FilingObligationsRule.execute: the obligation pushes in source order. -/
def execute (input : RuleInput) : List Obligation :=
  let part1 : List Obligation :=
    if requiresQuarterlyIncomeTax input then
      [ { id := "",
          formCode := "1701Q",
          formName := "Quarterly Income Tax Return",
          description := "For self-employed individuals, estates, and trusts",
          frequency := "quarterly",
          isApplicable := true,
          ruleModuleId := moduleId,
          notes :=
            if input.selectedRegime = some TaxRegime.EIGHT_PERCENT_FLAT then
              "File quarterly even under 8% regime. Report gross receipts and compute tax at 8%."
            else
              "Report income and compute tax using graduated rates with deductions." } ]
    else []
  let part2 : List Obligation :=
    [ { id := "",
        formCode := "1701",
        formName := "Annual Income Tax Return",
        description := "Annual income tax return for individuals",
        frequency := "annual",
        isApplicable := true,
        ruleModuleId := moduleId,
        notes := getAnnualReturnNotes input } ]
  let part3 : List Obligation :=
    if requiresPercentageTax input then
      [ { id := "",
          formCode := "2551Q",
          formName := "Quarterly Percentage Tax Return",
          description := "3% percentage tax on gross sales/receipts (non-VAT)",
          frequency := "quarterly",
          isApplicable := true,
          ruleModuleId := moduleId,
          notes :=
            "3% of gross sales/receipts. Required for non-VAT registered taxpayers using graduated rates. NOT required if using 8% flat tax option." } ]
    else if input.selectedRegime = some TaxRegime.EIGHT_PERCENT_FLAT then
      [ { id := "",
          formCode := "2551Q",
          formName := "Quarterly Percentage Tax Return",
          description := "3% percentage tax on gross sales/receipts (non-VAT)",
          frequency := "quarterly",
          isApplicable := false,
          ruleModuleId := moduleId,
          notes := "Not required because you elected 8% flat tax, which replaces percentage tax." } ]
    else []
  let part4 : List Obligation :=
    if input.registrationStatus = RegistrationStatus.NOT_REGISTERED then
      [ { id := "",
          formCode := "1901",
          formName := "Application for Registration (Self-Employed)",
          description := "Initial BIR registration for self-employed individuals",
          frequency := "annual",
          isApplicable := true,
          ruleModuleId := moduleId,
          notes :=
            "IMPORTANT: You must register with the BIR before starting business activities. This should be done within 30 days of starting business." } ]
    else []
  let part5 : List Obligation :=
    if input.registrationStatus = RegistrationStatus.REGISTERED then
      [ { id := "",
          formCode := "0605",
          formName := "Payment Form (Annual Registration Fee)",
          description := "Annual registration fee of ₱500",
          frequency := "annual",
          isApplicable := true,
          ruleModuleId := moduleId,
          notes := "₱500 annual registration fee, due on or before January 31 each year." } ]
    else []
  let part6 : List Obligation :=
    if input.incomeStreams.any (fun s => s.hasWithholding) then
      [ { id := "",
          formCode := "2307",
          formName := "Certificate of Creditable Tax Withheld at Source",
          description := "Certificate received from clients who withheld taxes",
          frequency := "quarterly",
          isApplicable := true,
          ruleModuleId := moduleId,
          notes :=
            "You should receive Form 2307 from clients who withhold taxes from your payments. These are CREDITS that reduce your tax due. Keep all 2307s for filing." } ]
    else []
  let part7 : List Obligation :=
    if input.hasEmploymentIncome then
      [ { id := "",
          formCode := "2316",
          formName := "Certificate of Compensation Payment/Tax Withheld",
          description := "Annual certificate from employer",
          frequency := "annual",
          isApplicable := true,
          ruleModuleId := moduleId,
          notes :=
            "Your employer should provide this by January 31. You need this to file Form 1701 for mixed income." } ]
    else []
  let part8 : List Obligation :=
    if input.userType ≠ UserType.MIXED_INCOME ∨
        input.incomeStreams.any (fun s => s.incomeType ≠ IncomeType.EMPLOYMENT) then
      [ { id := "",
          formCode := "BOOKS",
          formName := "Books of Accounts",
          description := "Required record-keeping for business/professional income",
          frequency := "annual",
          isApplicable := true,
          ruleModuleId := moduleId,
          notes :=
            if input.selectedRegime = some TaxRegime.EIGHT_PERCENT_FLAT then
              "Under 8% regime, you may use simplified books (journal and ledger). Must be registered with BIR."
            else
              "Must maintain books of accounts (journal, ledger, cash receipts/disbursements). Required for itemized deductions." } ]
    else []
  numberObligations
    (part1 ++ part2 ++ part3 ++ part4 ++ part5 ++ part6 ++ part7 ++ part8)

end FilingObligationsRule

/-- Days since 1970-01-01 of a civil date, normalising out-of-range fields
the way the JS Date constructor does (Hinnant day-count algorithm). -/
def daysFromCivil (y m d : ℤ) : ℤ :=
  let y2 := if m ≤ 2 then y - 1 else y
  let era := Int.fdiv y2 400
  let yoe := y2 - era * 400
  let mp := Int.emod (m + 9) 12
  let doy := Int.fdiv (153 * mp + 2) 5 + d - 1
  let doe := yoe * 365 + Int.fdiv yoe 4 - Int.fdiv yoe 100 + doy
  era * 146097 + doe - 719468

/-- Civil (year, month, day) of a day count since 1970-01-01. -/
def civilFromDays (z0 : ℤ) : ℤ × ℤ × ℤ :=
  let z := z0 + 719468
  let era := Int.fdiv z 146097
  let doe := z - era * 146097
  let yoe :=
    Int.fdiv (doe - Int.fdiv doe 1460 + Int.fdiv doe 36524 - Int.fdiv doe 146096) 365
  let y := yoe + era * 400
  let doy := doe - (365 * yoe + Int.fdiv yoe 4 - Int.fdiv yoe 100)
  let mp := Int.fdiv (5 * doy + 2) 153
  let d := doy - Int.fdiv (153 * mp + 2) 5 + 1
  let m := mp + (if mp < 10 then 3 else -9)
  (y + (if m ≤ 2 then 1 else 0), m, d)

/-- JS Date.prototype.getDay: 0 = Sunday.  1970-01-01 was a Thursday (4). -/
def jsGetDay (days : ℤ) : ℤ := Int.emod (days + 4) 7

/-- Left-pad a (non-negative, at most four digit) number to two digits. -/
def pad2 (n : ℤ) : String := if n < 10 then "0" ++ toString n else toString n

/-- Left-pad a year to four digits. -/
def pad4 (n : ℤ) : String :=
  if n < 10 then "000" ++ toString n
  else if n < 100 then "00" ++ toString n
  else if n < 1000 then "0" ++ toString n
  else toString n

/-- The date part of Date.prototype.toISOString: "YYYY-MM-DD". -/
def isoOfDays (days : ℤ) : String :=
  let c := civilFromDays days
  pad4 c.1 ++ "-" ++ pad2 c.2.1 ++ "-" ++ pad2 c.2.2

/-- A month/day pair in the deadline configuration. -/
structure MonthDay where
  month : ℤ
  day : ℤ
deriving DecidableEq, Repr

/-- interface DeadlineConfig (Q1-Q3 are always present in the constant). -/
structure DeadlineConfig where
  formCode : String
  q1 : MonthDay
  q2 : MonthDay
  q3 : MonthDay
  q4 : Option MonthDay := none
  annualDeadline : Option MonthDay := none
  description : String
deriving DecidableEq, Repr

/-- FILING_DEADLINES: the record keyed by form code. -/
def FILING_DEADLINES (code : String) : Option DeadlineConfig :=
  if code = "1701Q" then
    some { formCode := "1701Q",
           q1 := { month := 5, day := 15 },
           q2 := { month := 8, day := 15 },
           q3 := { month := 11, day := 15 },
           description :=
             "Quarterly Income Tax Return for Self-Employed Individuals, Estates and Trusts" }
  else if code = "1701" then
    some { formCode := "1701",
           q1 := { month := 4, day := 15 },
           q2 := { month := 4, day := 15 },
           q3 := { month := 4, day := 15 },
           annualDeadline := some { month := 4, day := 15 },
           description := "Annual Income Tax Return for Individuals (including Mixed Income)" }
  else if code = "2551Q" then
    some { formCode := "2551Q",
           q1 := { month := 4, day := 25 },
           q2 := { month := 7, day := 25 },
           q3 := { month := 10, day := 25 },
           q4 := some { month := 1, day := 25 },
           description := "Quarterly Percentage Tax Return" }
  else none

namespace DeadlineCalculationRule

/-- Module identifier of DeadlineCalculationRule. -/
def moduleId : String := "DEADLINE_CALCULATION"

/-- Module version of DeadlineCalculationRule. -/
def moduleVersion : String := "1.0.0"

/-- DeadlineCalculationRule.adjustForWeekend on day counts:
Sunday advances one day, Saturday two. -/
def adjustForWeekend (days : ℤ) : ℤ :=
  if jsGetDay days = 0 then days + 1
  else if jsGetDay days = 6 then days + 2
  else days

/-- DeadlineCalculationRule.calculateDueDate (result as a day count). -/
def calculateDueDate (year month day : ℤ) (period : String) : ℤ :=
  let dueDate := daysFromCivil year month day
  let dueDate := if period = "Q4" then daysFromCivil (year + 1) month day else dueDate
  adjustForWeekend dueDate

/-- The trimmed basePenalty template literal in getPenaltyInfo. -/
def basePenalty : String :=
  "Late filing penalties:\n• 25% surcharge on tax due (for late filing)\n• 12% annual interest on unpaid tax\n• Compromise penalty (varies by amount)\n\nNote: Penalties compound, so file and pay on time to avoid additional charges."

/-- DeadlineCalculationRule.getPenaltyInfo. -/
def getPenaltyInfo (formCode : String) : String :=
  if formCode = "1701Q" then
    basePenalty ++ "\n\nQuarterly returns help spread your tax payments throughout the year."
  else if formCode = "1701" then
    basePenalty ++
      "\n\nAnnual return reconciles all quarterly payments. Any underpayment is due with this return."
  else if formCode = "2551Q" then
    basePenalty ++ "\n\nPercentage tax (3%) is separate from income tax."
  else if formCode = "0605" then
    "Late payment of registration fee may result in penalties and difficulty in processing future transactions with the BIR."
  else basePenalty

/-- One quarterly deadline record (ids are assigned afterwards). -/
def quarterDeadline (taxYear : ℤ) (obligation : Obligation) (quarter : String)
    (md : MonthDay) : Deadline :=
  { id := "",
    obligationId := obligation.id,
    formCode := obligation.formCode,
    description := obligation.formName ++ " - " ++ quarter ++ " " ++ toString taxYear,
    dueDate := isoOfDays (calculateDueDate taxYear md.month md.day quarter),
    period := quarter ++ " " ++ toString taxYear,
    reminderDays := [30, 14, 7, 3, 1],
    penaltyInfo := getPenaltyInfo obligation.formCode }

/-- The deadlines pushed for one applicable obligation, in source order. -/
def deadlinesFor (taxYear : ℤ) (obligation : Obligation) : List Deadline :=
  let config := FILING_DEADLINES obligation.formCode
  let quarterly :=
    match config with
    | some c =>
        if obligation.frequency = "quarterly" then
          [ quarterDeadline taxYear obligation "Q1" c.q1,
            quarterDeadline taxYear obligation "Q2" c.q2,
            quarterDeadline taxYear obligation "Q3" c.q3 ]
        else []
    | none => []
  let annual :=
    if obligation.frequency = "annual" ∨ (config.bind (fun c => c.annualDeadline)).isSome then
      let annualConfig := (config.bind (fun c => c.annualDeadline)).getD
        { month := 4, day := 15 }
      [ { id := "",
          obligationId := obligation.id,
          formCode := obligation.formCode,
          description := obligation.formName ++ " - Tax Year " ++ toString taxYear,
          dueDate :=
            isoOfDays (calculateDueDate (taxYear + 1) annualConfig.month annualConfig.day
              "ANNUAL"),
          period := "Annual " ++ toString taxYear,
          reminderDays := [60, 30, 14, 7, 3, 1],
          penaltyInfo := getPenaltyInfo obligation.formCode } ]
    else []
  let special0605 :=
    if obligation.formCode = "0605" then
      [ { id := "",
          obligationId := obligation.id,
          formCode := "0605",
          description := "Annual Registration Fee - " ++ toString taxYear,
          dueDate := isoOfDays (adjustForWeekend (daysFromCivil taxYear 1 31)),
          period := toString taxYear,
          reminderDays := [30, 14, 7],
          penaltyInfo := "Late registration may result in penalties and surcharges." } ]
    else []
  let special1901 :=
    if obligation.formCode = "1901" then
      [ { id := "",
          obligationId := obligation.id,
          formCode := "1901",
          description := "BIR Registration - Within 30 days of starting business",
          dueDate := "ASAP",
          period := "Before business starts",
          reminderDays := [],
          penaltyInfo :=
            "Operating without BIR registration may result in penalties, surcharges, and possible criminal liability." } ]
    else []
  quarterly ++ annual ++ special0605 ++ special1901

/-- Sequential DL-n identifiers, assigned in emission order before sorting. -/
def numberDeadlines (l : List Deadline) : List Deadline :=
  l.enum.map (fun p => { p.2 with id := "DL-" ++ toString (p.1 + 1) })

/-- Lexicographic comparison of character lists (used to order ISO date
strings; on the fixed-width "YYYY-MM-DD" strings emitted here this coincides
with the chronological getTime order the JS comparator uses). -/
def strLtChars : List Char → List Char → Bool
  | [], [] => false
  | [], _ :: _ => true
  | _ :: _, [] => false
  | a :: as, b :: bs => if a < b then true else if b < a then false else strLtChars as bs

/-- The JS sort comparator as a total preorder: ASAP entries first, then
ascending due date. -/
def deadlineLe (a b : Deadline) : Bool :=
  if a.dueDate = "ASAP" then true
  else if b.dueDate = "ASAP" then false
  else !(strLtChars b.dueDate.toList a.dueDate.toList)

/-- DeadlineCalculationRule.execute. -/
def execute (input : RuleInput) (obligations : List Obligation) : List Deadline :=
  let raw :=
    (obligations.filter (fun o => o.isApplicable)).flatMap (deadlinesFor input.taxYear)
  let numbered := numberDeadlines raw
  List.insertionSort (fun a b => deadlineLe a b = true) numbered

end DeadlineCalculationRule

/-- Rounding half away from zero, as Intl number formatting does. -/
def roundHalfExpand (x : ℚ) : ℤ := if 0 ≤ x then ⌊x + 1/2⌋ else -⌊-x + 1/2⌋

/-- Group the decimal digits of a natural number with commas (en-US). -/
def natGrouped (n : ℕ) : String :=
  let ds := (toString n).toList.reverse
  String.mk
    ((ds.enum.flatMap
        (fun p => if p.1 ≠ 0 ∧ p.1 % 3 = 0 then [',', p.2] else [p.2])).reverse)

/-- Left-pad a natural number with zeros to the given number of digits. -/
def padZeros (n : ℕ) (digits : ℕ) : String :=
  let s := toString n
  String.mk (List.replicate (digits - s.length) '0') ++ s

/-- Strip trailing zero characters. -/
def stripTrailingZeros (s : String) : String :=
  String.mk (((s.toList.reverse).dropWhile (fun c => c = '0')).reverse)

/-- Number.prototype.toLocaleString with en-US defaults: comma grouping and
at most three fraction digits. -/
def toLocaleStringQ (x : ℚ) : String :=
  let neg : Bool := decide (x < 0)
  let a := |x|
  let scaled := (roundHalfExpand (a * 1000)).toNat
  let intPart := scaled / 1000
  let fracPart := scaled % 1000
  let fracStr :=
    if fracPart = 0 then "" else "." ++ stripTrailingZeros (padZeros fracPart 3)
  (if neg then "-" else "") ++ natGrouped intPart ++ fracStr

/-- Number.prototype.toFixed with the given number of fraction digits. -/
def toFixedQ (x : ℚ) (digits : ℕ) : String :=
  let neg : Bool := decide (x < 0)
  let a := |x|
  let p : ℕ := 10 ^ digits
  let scaled := (roundHalfExpand (a * p)).toNat
  let intPart := scaled / p
  let fracPart := scaled % p
  (if neg then "-" else "") ++ toString intPart ++
    (if digits = 0 then "" else "." ++ padZeros fracPart digits)

namespace RiskAssessmentRule

/-- Module identifier of RiskAssessmentRule. -/
def moduleId : String := "RISK_ASSESSMENT"

/-- Module version of RiskAssessmentRule. -/
def moduleVersion : String := "1.0.0"

/-- Sequential RISK-n identifiers: the counter advances once per pushed flag. -/
def numberFlags (l : List RiskFlag) : List RiskFlag :=
  l.enum.map (fun p => { p.2 with id := "RISK-" ++ toString (p.1 + 1) })

/-- RiskAssessmentRule.execute: the flag pushes in source order. -/
def execute (input : RuleInput) : List RiskFlag :=
  let businessIncome :=
    ((input.incomeStreams.filter
        (fun s => s.incomeType ≠ IncomeType.EMPLOYMENT)).map (fun s => s.grossAmount)).sum
  let unregFlags : List RiskFlag :=
    if input.registrationStatus = RegistrationStatus.NOT_REGISTERED ∧ businessIncome > 0 then
      [ { id := "",
          level := RiskLevel.CPA_REVIEW_REQUIRED,
          code := "UNREG_WITH_INCOME",
          title := "Operating Without BIR Registration",
          description :=
            "You have reported business/professional income of ₱" ++
              toLocaleStringQ businessIncome ++
              " but are not registered with the BIR. This may have legal and tax implications.",
          ruleModuleId := moduleId,
          recommendedAction :=
            "Register with the BIR immediately. Consult a CPA to assess any back taxes, penalties, or amnesty programs that may apply to your situation.",
          affectedFields := ["registrationStatus", "tin"] } ]
    else []
  let needsUpdateFlags : List RiskFlag :=
    if input.registrationStatus = RegistrationStatus.NEEDS_UPDATE then
      [ { id := "",
          level := RiskLevel.WARNING,
          code := "REG_NEEDS_UPDATE",
          title := "BIR Registration Needs Updating",
          description :=
            "Your BIR registration may need updating. This could affect your tax filing requirements.",
          ruleModuleId := moduleId,
          recommendedAction :=
            "Visit your RDO to update your registration. Common updates include: change of address, change of line of business, or updating from employee to self-employed status.",
          affectedFields := ["registrationStatus", "rdo"] } ]
    else []
  let totalGrossReceipts :=
    ((input.incomeStreams.filter
        (fun s => s.incomeType ≠ IncomeType.EMPLOYMENT)).map (fun s => s.grossAmount)).sum
  let approachingFlags : List RiskFlag :=
    if totalGrossReceipts ≥ TAX_THRESHOLDS.VAT_THRESHOLD * (80 / 100) ∧
        totalGrossReceipts < TAX_THRESHOLDS.VAT_THRESHOLD then
      [ { id := "",
          level := RiskLevel.WARNING,
          code := "APPROACHING_VAT_THRESHOLD",
          title := "Approaching VAT Registration Threshold",
          description :=
            "Your gross receipts (₱" ++ toLocaleStringQ totalGrossReceipts ++
              ") are approaching the ₱3,000,000 VAT threshold. Once exceeded, you must register for VAT.",
          ruleModuleId := moduleId,
          recommendedAction :=
            "Monitor your income closely. If you expect to exceed ₱3M, consult a CPA about VAT registration requirements and timing.",
          affectedFields := ["incomeStreams"] } ]
    else []
  let exceedsFlags : List RiskFlag :=
    if totalGrossReceipts > TAX_THRESHOLDS.VAT_THRESHOLD then
      [ { id := "",
          level := RiskLevel.CPA_REVIEW_REQUIRED,
          code := "EXCEEDS_VAT_THRESHOLD",
          title := "Gross Receipts Exceed VAT Threshold",
          description :=
            "Your gross receipts (₱" ++ toLocaleStringQ totalGrossReceipts ++
              ") exceed the ₱3,000,000 VAT threshold. This app currently does not support VAT workflows.",
          ruleModuleId := moduleId,
          recommendedAction :=
            "IMPORTANT: You are required to register for VAT. Consult a CPA immediately for proper VAT compliance, which includes different filing requirements and rates.",
          affectedFields := ["incomeStreams", "selectedRegime"] } ]
    else []
  let streamsWithWithholding := input.incomeStreams.filter (fun s => s.hasWithholding)
  let streamsWithout2307 := streamsWithWithholding.filter (fun s => !s.form2307Received)
  let missing2307Flags : List RiskFlag :=
    if streamsWithout2307.length > 0 then
      let totalWithheldMissing :=
        (streamsWithout2307.map (fun s => s.withheldAmount.getD 0)).sum
      [ { id := "",
          level := RiskLevel.WARNING,
          code := "MISSING_2307",
          title := "Missing Form 2307 Certificates",
          description :=
            "You have " ++ toString streamsWithout2307.length ++
              " income source(s) with withholding taxes (₱" ++
              toLocaleStringQ totalWithheldMissing ++
              ") but no Form 2307 received. Without 2307, you cannot claim these as tax credits.",
          ruleModuleId := moduleId,
          recommendedAction :=
            "Request Form 2307 certificates from your clients/payors. These are usually issued within the month following payment. Keep them for filing and audit purposes.",
          affectedFields := ["incomeStreams"] } ]
    else []
  let totalWithheld := (streamsWithWithholding.map (fun s => s.withheldAmount.getD 0)).sum
  let effectiveWithholdingRate :=
    if totalGrossReceipts > 0 then totalWithheld / totalGrossReceipts else 0
  let highWithholdingFlags : List RiskFlag :=
    if effectiveWithholdingRate > 15 / 100 ∧ totalWithheld > 50000 then
      [ { id := "",
          level := RiskLevel.INFO,
          code := "HIGH_WITHHOLDING",
          title := "High Withholding Tax Rate",
          description :=
            "Your effective withholding rate is " ++
              toFixedQ (effectiveWithholdingRate * 100) 1 ++
              "%. This may result in a tax refund or credit.",
          ruleModuleId := moduleId,
          recommendedAction :=
            "Verify that clients are using the correct withholding rate for your income type. You may be entitled to a refund if overwithholding occurred.",
          affectedFields := ["incomeStreams"] } ]
    else []
  let undeterminedFlags : List RiskFlag :=
    if input.selectedRegime = some TaxRegime.UNDETERMINED then
      [ { id := "",
          level := RiskLevel.WARNING,
          code := "REGIME_NOT_SELECTED",
          title := "Tax Regime Not Yet Selected",
          description :=
            "You have not selected between 8% flat tax and graduated rates. This selection affects your tax computation and filing obligations.",
          ruleModuleId := moduleId,
          recommendedAction :=
            "Review the regime comparison and select your preferred option. Once selected and filed, this cannot be changed for the tax year.",
          affectedFields := ["selectedRegime"] } ]
    else []
  let highExpenseFlags : List RiskFlag :=
    if input.selectedRegime = some TaxRegime.EIGHT_PERCENT_FLAT then
      let totalDeductions :=
        ((input.expenses.filter (fun e => e.isDeductible)).map (fun e => e.amount)).sum
      let expenseRatioVal :=
        if totalGrossReceipts > 0 then totalDeductions / totalGrossReceipts else 0
      if expenseRatioVal > 50 / 100 then
        [ { id := "",
            level := RiskLevel.INFO,
            code := "8PCT_HIGH_EXPENSES",
            title := "High Expenses with 8% Flat Tax",
            description :=
              "Your expenses are " ++ toFixedQ (expenseRatioVal * 100) 0 ++
                "% of gross receipts. With the 8% flat tax, you cannot deduct these expenses. Graduated rates might result in lower tax.",
            ruleModuleId := moduleId,
            recommendedAction :=
              "Review the regime comparison. If you have not yet filed your first quarterly return for the year, you may still switch to graduated rates.",
            affectedFields := ["selectedRegime", "expenses"] } ]
      else []
    else []
  let noIncomeFlags : List RiskFlag :=
    if input.incomeStreams.length = 0 then
      [ { id := "",
          level := RiskLevel.WARNING,
          code := "NO_INCOME_RECORDED",
          title := "No Income Streams Recorded",
          description :=
            "No income has been recorded for this tax year. Add your income sources to generate an accurate assessment.",
          ruleModuleId := moduleId,
          recommendedAction :=
            "Add your income streams, including amounts and whether withholding tax was deducted.",
          affectedFields := ["incomeStreams"] } ]
    else []
  let mixedNoEmploymentFlags : List RiskFlag :=
    if input.userType = UserType.MIXED_INCOME ∧ ¬input.hasEmploymentIncome ∧
        ¬input.incomeStreams.any (fun s => s.incomeType = IncomeType.EMPLOYMENT) then
      [ { id := "",
          level := RiskLevel.WARNING,
          code := "MIXED_NO_EMPLOYMENT",
          title := "Mixed Income Type Without Employment Income",
          description :=
            "You selected \"Mixed Income\" as your user type but have not recorded any employment income.",
          ruleModuleId := moduleId,
          recommendedAction :=
            "Either add your employment income details or change your user type if you no longer have employment income.",
          affectedFields := ["userType", "hasEmploymentIncome", "incomeStreams"] } ]
    else []
  let largeIncomeNoDocsFlags : List RiskFlag :=
    if totalGrossReceipts > 500000 then
      if ¬input.incomeStreams.any (fun s => s.form2307Received || s.hasWithholding) then
        [ { id := "",
            level := RiskLevel.INFO,
            code := "LARGE_INCOME_NO_DOCS",
            title := "Consider Documenting Income Sources",
            description :=
              "Your income exceeds ₱500,000 with no withholding certificates indicated. Ensure you have proper documentation.",
            ruleModuleId := moduleId,
            recommendedAction :=
              "Keep official receipts, invoices, and contracts for all income. These serve as evidence in case of BIR audit.",
            affectedFields := ["incomeStreams"] } ]
      else []
    else []
  let expenseDocsFlags : List RiskFlag :=
    if input.selectedRegime = some TaxRegime.GRADUATED_RATES ∧ input.expenses.length > 0 then
      [ { id := "",
          level := RiskLevel.INFO,
          code := "EXPENSE_DOCS_REMINDER",
          title := "Keep Expense Documentation",
          description :=
            "You are using graduated rates with itemized deductions. All deductible expenses must be supported by official receipts.",
          ruleModuleId := moduleId,
          recommendedAction :=
            "Ensure you have Official Receipts (OR) or Sales Invoices (SI) for all business expenses. The BIR may disallow deductions without proper documentation.",
          affectedFields := ["expenses"] } ]
    else []
  numberFlags
    (unregFlags ++ needsUpdateFlags ++ approachingFlags ++ exceedsFlags ++
      missing2307Flags ++ highWithholdingFlags ++ undeterminedFlags ++ highExpenseFlags ++
      noIncomeFlags ++ mixedNoEmploymentFlags ++ largeIncomeNoDocsFlags ++ expenseDocsFlags)

end RiskAssessmentRule

/-- Values stored in the heterogeneous input/output digests of a reasoning
step (Record of string, number, boolean, array; undefined for a missing
regime). -/
inductive JVal where
  | str : String → JVal
  | num : ℚ → JVal
  | bool : Bool → JVal
  | arr : List JVal → JVal
  | undef : JVal

/-- interface ReasoningStep. -/
structure ReasoningStep where
  stepNumber : ℕ
  ruleModuleId : String
  ruleModuleVersion : String
  input : List (String × JVal)
  output : List (String × JVal)
  explanation : String

/-- The completeness part of the reasoning receipt. -/
structure Completeness where
  score : ℤ
  missingFields : List String
  warnings : List String

/-- interface ReasoningReceipt. -/
structure ReasoningReceipt where
  steps : List ReasoningStep
  explanationIds : List String
  completeness : Completeness

/-- interface AssessmentOutput.  `recommendedRegime` is an Option because the
source assigns the effective regime, which is `undefined` at runtime when the
caller omitted `selectedRegime`. -/
structure AssessmentOutput where
  recommendedRegime : Option TaxRegime
  regimeComparison : RegimeComparisonResult
  computedValues : ComputedValues
  obligations : List Obligation
  deadlines : List Deadline
  riskFlags : List RiskFlag
  reasoningReceipt : ReasoningReceipt
  rulesEngineVersion : String

/-- String value of a UserType enum member. -/
def userTypeStr : UserType → String
  | UserType.FREELANCER => "FREELANCER"
  | UserType.SELF_EMPLOYED => "SELF_EMPLOYED"
  | UserType.MICRO_SMALL_BUSINESS => "MICRO_SMALL_BUSINESS"
  | UserType.MIXED_INCOME => "MIXED_INCOME"

/-- String value of a RegistrationStatus enum member. -/
def registrationStatusStr : RegistrationStatus → String
  | RegistrationStatus.NOT_REGISTERED => "NOT_REGISTERED"
  | RegistrationStatus.PENDING_REGISTRATION => "PENDING_REGISTRATION"
  | RegistrationStatus.REGISTERED => "REGISTERED"
  | RegistrationStatus.NEEDS_UPDATE => "NEEDS_UPDATE"

/-- String value of a TaxRegime enum member. -/
def taxRegimeStr : TaxRegime → String
  | TaxRegime.GRADUATED_RATES => "GRADUATED_RATES"
  | TaxRegime.EIGHT_PERCENT_FLAT => "EIGHT_PERCENT_FLAT"
  | TaxRegime.UNDETERMINED => "UNDETERMINED"

/-- Digest value of a possibly-undefined regime. -/
def regimeJVal : Option TaxRegime → JVal
  | none => JVal.undef
  | some r => JVal.str (taxRegimeStr r)

namespace RulesEngineService

/-- Engine version constant. -/
def VERSION : String := "1.0.0"

/-- JS falsiness of the optional `tin` field: undefined or empty string. -/
def tinFalsy : Option String → Bool
  | none => true
  | some t => t.isEmpty

/-- RulesEngineService.assessCompleteness. -/
def assessCompleteness (input : RuleInput) : Completeness :=
  let missingFields :=
    (if tinFalsy input.tin then ["TIN (Tax Identification Number)"] else []) ++
      (if input.incomeStreams.length = 0 then ["Income streams"] else [])
  let warnings :=
    (if input.selectedRegime = some TaxRegime.UNDETERMINED then
        ["Tax regime not selected - using recommended regime"]
      else []) ++
      (if input.incomeStreams.any (fun s => s.hasWithholding && !s.form2307Received) then
        ["Some withholding taxes lack Form 2307 documentation"]
      else [])
  let totalChecks : ℚ := 10
  let passedChecks : ℚ :=
    totalChecks - missingFields.length - (warnings.length : ℚ) * (1 / 2)
  let score := max 0 (min 100 (passedChecks / totalChecks * 100))
  { score := jsRound score, missingFields := missingFields, warnings := warnings }

/-- RulesEngineService.runAssessment: the sequential five-step pipeline. -/
def runAssessment (input : RuleInput) : AssessmentOutput :=
  let regimeComparison := RegimeDeterminationRule.execute input
  let step1 : ReasoningStep :=
    { stepNumber := 1,
      ruleModuleId := RegimeDeterminationRule.moduleId,
      ruleModuleVersion := RegimeDeterminationRule.moduleVersion,
      input :=
        [ ("userType", JVal.str (userTypeStr input.userType)),
          ("grossIncome", JVal.num ((input.incomeStreams.map (fun s => s.grossAmount)).sum)),
          ("hasEmploymentIncome", JVal.bool input.hasEmploymentIncome) ],
      output :=
        [ ("eligible8Percent", JVal.bool regimeComparison.eligible8Percent),
          ("recommendation", JVal.str (taxRegimeStr regimeComparison.recommendation)) ],
      explanation := regimeComparison.recommendationReason }
  let effectiveRegime : Option TaxRegime :=
    if input.selectedRegime ≠ some TaxRegime.UNDETERMINED then input.selectedRegime
    else some regimeComparison.recommendation
  let effectiveInput : RuleInput := { input with selectedRegime := effectiveRegime }
  let computedValues := TaxComputationRule.execute effectiveInput
  let step2 : ReasoningStep :=
    { stepNumber := 2,
      ruleModuleId := "TAX_COMPUTATION",
      ruleModuleVersion := "1.0.0",
      input :=
        [ ("regime", regimeJVal effectiveRegime),
          ("grossIncome", JVal.num computedValues.grossIncome),
          ("deductions", JVal.num computedValues.totalDeductions) ],
      output :=
        [ ("taxableIncome", JVal.num computedValues.taxableIncome),
          ("estimatedTax", JVal.num computedValues.estimatedTax),
          ("netTaxPayable", JVal.num computedValues.netTaxPayable) ],
      explanation :=
        "Tax computed using " ++
          (if effectiveRegime = some TaxRegime.EIGHT_PERCENT_FLAT then "8% flat rate"
            else "graduated rates with deductions") ++ "." }
  let obligations := FilingObligationsRule.execute effectiveInput
  let applicableObligations := obligations.filter (fun o => o.isApplicable)
  let step3 : ReasoningStep :=
    { stepNumber := 3,
      ruleModuleId := FilingObligationsRule.moduleId,
      ruleModuleVersion := FilingObligationsRule.moduleVersion,
      input :=
        [ ("userType", JVal.str (userTypeStr input.userType)),
          ("regime", regimeJVal effectiveRegime),
          ("hasEmploymentIncome", JVal.bool input.hasEmploymentIncome) ],
      output :=
        [ ("applicableObligations",
            JVal.arr (applicableObligations.map (fun o => JVal.str o.formCode))),
          ("totalObligations", JVal.num obligations.length) ],
      explanation :=
        "Identified " ++ toString applicableObligations.length ++
          " applicable filing obligations." }
  let deadlines := DeadlineCalculationRule.execute effectiveInput obligations
  let step4 : ReasoningStep :=
    { stepNumber := 4,
      ruleModuleId := DeadlineCalculationRule.moduleId,
      ruleModuleVersion := DeadlineCalculationRule.moduleVersion,
      input :=
        [ ("taxYear", JVal.num input.taxYear),
          ("obligations",
            JVal.arr (applicableObligations.map (fun o => JVal.str o.formCode))) ],
      output :=
        [ ("totalDeadlines", JVal.num deadlines.length),
          ("nextDeadline",
            JVal.str
              (match deadlines.head? with
                | some d => if d.dueDate.isEmpty then "None" else d.dueDate
                | none => "None")) ],
      explanation :=
        "Calculated " ++ toString deadlines.length ++ " filing deadlines for tax year " ++
          toString input.taxYear ++ "." }
  let riskFlags := RiskAssessmentRule.execute effectiveInput
  let criticalCount :=
    (riskFlags.filter (fun f => f.level = RiskLevel.CPA_REVIEW_REQUIRED)).length
  let step5 : ReasoningStep :=
    { stepNumber := 5,
      ruleModuleId := RiskAssessmentRule.moduleId,
      ruleModuleVersion := RiskAssessmentRule.moduleVersion,
      input :=
        [ ("registrationStatus", JVal.str (registrationStatusStr input.registrationStatus)),
          ("totalIncome", JVal.num computedValues.grossIncome),
          ("hasWithholding", JVal.bool (input.incomeStreams.any (fun s => s.hasWithholding))) ],
      output :=
        [ ("totalFlags", JVal.num riskFlags.length),
          ("criticalFlags", JVal.num criticalCount),
          ("warningFlags",
            JVal.num (riskFlags.filter (fun f => f.level = RiskLevel.WARNING)).length) ],
      explanation :=
        "Identified " ++ toString riskFlags.length ++ " risk flags, including " ++
          toString criticalCount ++ " requiring CPA review." }
  let reasoningSteps := [step1, step2, step3, step4, step5]
  let reasoningReceipt : ReasoningReceipt :=
    { steps := reasoningSteps,
      explanationIds :=
        reasoningSteps.map (fun s => s.ruleModuleId ++ "_v" ++ s.ruleModuleVersion),
      completeness := assessCompleteness input }
  { recommendedRegime := effectiveRegime,
    regimeComparison := regimeComparison,
    computedValues := computedValues,
    obligations := obligations,
    deadlines := deadlines,
    riskFlags := riskFlags,
    reasoningReceipt := reasoningReceipt,
    rulesEngineVersion := VERSION }

end RulesEngineService

/-- Valid input in the sense of the spec: all declared amounts non-negative. -/
def ValidInput (input : RuleInput) : Prop :=
  (∀ s ∈ input.incomeStreams, 0 ≤ s.grossAmount ∧ 0 ≤ s.withheldAmount.getD 0) ∧
    ∀ e ∈ input.expenses, 0 ≤ e.amount

instance (input : RuleInput) : Decidable (ValidInput input) := by
  unfold ValidInput; infer_instance

/-- Example income stream: a single 500,000 freelance stream. -/
def exStream500k : IncomeStreamData :=
  { id := "1", incomeType := IncomeType.FREELANCE_SERVICE, grossAmount := 500000,
    frequency := IncomeFrequency.ONE_TIME, hasWithholding := false, form2307Received := false }

/-- Example input: registered freelancer, 500,000 gross, 8% flat regime. -/
def exInputFlat500k : RuleInput :=
  { taxYear := 2024, userType := UserType.FREELANCER,
    registrationStatus := RegistrationStatus.REGISTERED, hasEmploymentIncome := false,
    incomeStreams := [exStream500k], expenses := [],
    selectedRegime := some TaxRegime.EIGHT_PERCENT_FLAT }

/-- Example input: flat regime with gross 250,000.125, so that the net tax
payable of 0.01 is not a whole number of cents when divided by four. -/
def exInputTinyFlat : RuleInput :=
  { exInputFlat500k with incomeStreams := [{ exStream500k with grossAmount := 250000 + 1/8 }] }

/-- Example input: freelancer with 600,000 gross, regime undetermined. -/
def exInput600k : RuleInput :=
  { taxYear := 2024, userType := UserType.FREELANCER,
    registrationStatus := RegistrationStatus.REGISTERED, hasEmploymentIncome := false,
    incomeStreams := [{ exStream500k with grossAmount := 600000 }], expenses := [],
    selectedRegime := some TaxRegime.UNDETERMINED }

/-- Example input: freelancer whose gross receipts exceed the VAT threshold. -/
def exInput3p5M : RuleInput :=
  { exInput600k with incomeStreams := [{ exStream500k with grossAmount := 3500000 }] }

/-- Example input: the mixed-income scenario from the repository test suite
(employment 500,000 with 50,000 withheld, freelance 300,000). -/
def exInputMixedTest : RuleInput :=
  { taxYear := 2024, userType := UserType.MIXED_INCOME,
    registrationStatus := RegistrationStatus.REGISTERED, hasEmploymentIncome := true,
    incomeStreams :=
      [ { id := "1", incomeType := IncomeType.EMPLOYMENT, grossAmount := 500000,
          frequency := IncomeFrequency.MONTHLY, hasWithholding := true,
          withheldAmount := some 50000, form2307Received := false },
        { id := "2", incomeType := IncomeType.FREELANCE_SERVICE, grossAmount := 300000,
          frequency := IncomeFrequency.ONE_TIME, hasWithholding := false,
          form2307Received := false } ],
    expenses := [], selectedRegime := some TaxRegime.UNDETERMINED }

/-- The mixed-income example with graduated rates selected. -/
def exInputMixedGrad : RuleInput :=
  { exInputMixedTest with selectedRegime := some TaxRegime.GRADUATED_RATES }

/-- The MISSING_2307 flag produced for the mixed-income example. -/
def exRiskFlagMissing2307 : RiskFlag :=
  { id := "RISK-1", level := RiskLevel.WARNING, code := "MISSING_2307",
    title := "Missing Form 2307 Certificates",
    description :=
      "You have 1 income source(s) with withholding taxes (₱50,000) but no Form 2307 received. Without 2307, you cannot claim these as tax credits.",
    ruleModuleId := "RISK_ASSESSMENT",
    recommendedAction :=
      "Request Form 2307 certificates from your clients/payors. These are usually issued within the month following payment. Keep them for filing and audit purposes.",
    affectedFields := ["incomeStreams"] }

/-- The special-case 0605 deadline produced for `exInputFlat500k`. -/
def exDeadline0605 : Deadline :=
  { id := "DL-6", obligationId := "OBL-4", formCode := "0605",
    description := "Annual Registration Fee - 2024", dueDate := "2024-01-31",
    period := "2024", reminderDays := [30, 14, 7],
    penaltyInfo := "Late registration may result in penalties and surcharges." }

/-- Applicability flags of the 2551Q records in an obligation list, in order
(used to state which percentage-tax records FilingObligationsRule emits). -/
def applicable2551 (l : List Obligation) : List Bool :=
  (l.filter (fun o => o.formCode = "2551Q")).map (fun o => o.isApplicable)

lemma tc_estimatedTax_eq (input : RuleInput) :
    (TaxComputationRule.execute input).estimatedTax =
      if input.selectedRegime = some TaxRegime.EIGHT_PERCENT_FLAT then
        (TaxComputationRule.compute8PercentTax
            (TaxComputationRule.calculateBusinessIncome input)).tax
      else
        (TaxComputationRule.computeGraduatedTax
            (TaxComputationRule.calculateBusinessIncome input)
            (TaxComputationRule.calculateTotalDeductions input)
            (TaxComputationRule.calculateEmploymentIncome input)).tax := by
  simp only [TaxComputationRule.execute]
  split <;> rfl

lemma tc_netTaxPayable_eq (input : RuleInput) :
    (TaxComputationRule.execute input).netTaxPayable =
      max 0 ((TaxComputationRule.execute input).estimatedTax -
        TaxComputationRule.calculateWithholdingCredits input) := rfl

lemma tc_quarterly_eq (input : RuleInput) :
    (TaxComputationRule.execute input).quarterlyPayments =
      TaxComputationRule.calculateQuarterlyPayments
        (TaxComputationRule.execute input).netTaxPayable input.selectedRegime := rfl

lemma regime_apply_eq_tc :
    RegimeDeterminationRule.applyGraduatedRates = TaxComputationRule.applyGraduatedRates := rfl

lemma applyGraduatedRates_nonneg (x : ℚ) :
    0 ≤ TaxComputationRule.applyGraduatedRates x := by
  unfold TaxComputationRule.applyGraduatedRates
  simp only [findBracket, GRADUATED_TAX_BRACKETS_2023, withinBracketMax]
  split_ifs <;>
    · dsimp only
      apply add_nonneg (by norm_num)
      apply mul_nonneg (le_max_left _ _) (by norm_num)

lemma calculateBusinessIncome_nonneg (input : RuleInput)
    (h : ∀ s ∈ input.incomeStreams, 0 ≤ s.grossAmount) :
    0 ≤ TaxComputationRule.calculateBusinessIncome input := by
  unfold TaxComputationRule.calculateBusinessIncome
  apply List.sum_nonneg
  intro x hx
  rcases List.mem_map.mp hx with ⟨s, hs, rfl⟩
  exact h s (List.mem_of_mem_filter hs)

lemma calculateWithholdingCredits_nonneg (input : RuleInput)
    (h : ∀ s ∈ input.incomeStreams, 0 ≤ s.withheldAmount.getD 0) :
    0 ≤ TaxComputationRule.calculateWithholdingCredits input := by
  unfold TaxComputationRule.calculateWithholdingCredits
  apply List.sum_nonneg
  intro x hx
  rcases List.mem_map.mp hx with ⟨s, hs, rfl⟩
  exact h s (List.mem_of_mem_filter hs)

/-- C1: for every valid RuleInput (all amounts non-negative), the
ComputedValues returned by TaxComputationRule.execute satisfy
estimatedTax ≥ 0, netTaxPayable ≥ 0 and netTaxPayable ≤ estimatedTax. -/
theorem C1_computed_values_invariants (input : RuleInput) (h : ValidInput input) :
    0 ≤ (TaxComputationRule.execute input).estimatedTax ∧
      0 ≤ (TaxComputationRule.execute input).netTaxPayable ∧
      (TaxComputationRule.execute input).netTaxPayable ≤
        (TaxComputationRule.execute input).estimatedTax := by
  obtain ⟨hs, _he⟩ := h
  have hcred : 0 ≤ TaxComputationRule.calculateWithholdingCredits input :=
    calculateWithholdingCredits_nonneg input (fun s hmem => (hs s hmem).2)
  have hest : 0 ≤ (TaxComputationRule.execute input).estimatedTax := by
    rw [tc_estimatedTax_eq]
    split
    · unfold TaxComputationRule.compute8PercentTax
      dsimp only
      apply mul_nonneg (le_max_left _ _)
      norm_num [TAX_THRESHOLDS.EIGHT_PERCENT_RATE]
    · unfold TaxComputationRule.computeGraduatedTax
      dsimp only
      exact applyGraduatedRates_nonneg _
  refine ⟨hest, ?_, ?_⟩
  · rw [tc_netTaxPayable_eq]; exact le_max_left _ _
  · rw [tc_netTaxPayable_eq]
    exact max_le hest (by linarith)

/-- Witness for C1 at the concrete 500,000 flat-regime input. -/
theorem C1_witness :
    ValidInput exInputFlat500k ∧
      (0 ≤ (TaxComputationRule.execute exInputFlat500k).estimatedTax ∧
        0 ≤ (TaxComputationRule.execute exInputFlat500k).netTaxPayable ∧
        (TaxComputationRule.execute exInputFlat500k).netTaxPayable ≤
          (TaxComputationRule.execute exInputFlat500k).estimatedTax) :=
  ⟨by decide, C1_computed_values_invariants exInputFlat500k (by decide)⟩

/-- C3 counterexample: the graduated bracket table applied to a taxable
income of exactly 400,000 does not give 22,500 (the second bracket's min is
250,001, so the tax is 22,499.85). -/
theorem C3_counterexample : TaxComputationRule.applyGraduatedRates 400000 ≠ 22500 := by
  decide

/-- C3 amended: taxableIncome 250,000 gives tax 0 in both modules, and
taxable 400,000 gives 22,499.85 (not 22,500) in both modules. -/
theorem C3_bracket_boundaries :
    TaxComputationRule.applyGraduatedRates 250000 = 0 ∧
      RegimeDeterminationRule.applyGraduatedRates 250000 = 0 ∧
      TaxComputationRule.applyGraduatedRates 400000 = 2249985 / 100 ∧
      RegimeDeterminationRule.applyGraduatedRates 400000 = 2249985 / 100 := by
  decide

/-- C4: evaluation of the code at the failing input of the repository test
suite (mixed income, business income 300,000 ≤ 3,000,000): the code returns
eligible8Percent = false, while the claim, the spec, and the test expect
true, because the eligibleUserTypes list omits MIXED_INCOME. -/
theorem C4_code_eval :
    RegimeDeterminationRule.calculateBusinessIncome exInputMixedTest = 300000 ∧
      (RegimeDeterminationRule.execute exInputMixedTest).eligible8Percent = false := by
  decide

lemma checkEligibility_false_of_over_vat (input : RuleInput)
    (h : RegimeDeterminationRule.calculateBusinessIncome input > 3000000) :
    (RegimeDeterminationRule.checkEligibility input).isEligible = false := by
  have hbv : RegimeDeterminationRule.calculateBusinessIncome input >
      TAX_THRESHOLDS.VAT_THRESHOLD := by
    simpa [TAX_THRESHOLDS.VAT_THRESHOLD] using h
  simp only [RegimeDeterminationRule.checkEligibility]
  split_ifs <;> simp_all

/-- C5: whenever businessIncome exceeds the 3,000,000 VAT threshold, the
regime rule recommends GRADUATED_RATES, never EIGHT_PERCENT_FLAT. -/
theorem C5_no_flat_above_vat_threshold (input : RuleInput)
    (h : RegimeDeterminationRule.calculateBusinessIncome input > 3000000) :
    (RegimeDeterminationRule.execute input).recommendation = TaxRegime.GRADUATED_RATES := by
  have hElig := checkEligibility_false_of_over_vat input h
  simp [RegimeDeterminationRule.execute, hElig]

/-- Witness for C5 at a 3,500,000 gross input. -/
theorem C5_witness :
    RegimeDeterminationRule.calculateBusinessIncome exInput3p5M > 3000000 ∧
      (RegimeDeterminationRule.execute exInput3p5M).recommendation =
        TaxRegime.GRADUATED_RATES :=
  ⟨by decide, C5_no_flat_above_vat_threshold exInput3p5M (by decide)⟩

/-- C8: under the flat regime estimatedTax = max(0, businessIncome − 250,000)
× 0.08; the 500,000 freelancer gets 20,000; the 600,000 regime comparison
computes the flat tax as 28,000. -/
theorem C8_flat_tax_formula :
    (∀ input : RuleInput, input.selectedRegime = some TaxRegime.EIGHT_PERCENT_FLAT →
        (TaxComputationRule.execute input).estimatedTax =
          max 0 (TaxComputationRule.calculateBusinessIncome input - 250000) * (8 / 100)) ∧
      (TaxComputationRule.execute exInputFlat500k).estimatedTax = 20000 ∧
      (RegimeDeterminationRule.execute exInput600k).comparison.eightPercent.estimatedTax =
        28000 := by
  refine ⟨?_, by decide, by decide⟩
  intro input hreg
  rw [tc_estimatedTax_eq, if_pos hreg]
  unfold TaxComputationRule.compute8PercentTax
  norm_num [TAX_THRESHOLDS.PERSONAL_EXEMPTION_THRESHOLD, TAX_THRESHOLDS.EIGHT_PERCENT_RATE]

/-- Witness for C8 at the concrete flat-regime input. -/
theorem C8_witness :
    (TaxComputationRule.execute exInputFlat500k).estimatedTax =
      max 0 (TaxComputationRule.calculateBusinessIncome exInputFlat500k - 250000) * (8 / 100) :=
  C8_flat_tax_formula.1 exInputFlat500k (by decide)

/-- C9: runAssessment is a pure function of its input; two invocations on
the same input give identical output (the embedding threads no state: the
per-invocation id counters are call-local and there is no clock access). -/
theorem C9_deterministic (input1 input2 : RuleInput) (h : input1 = input2) :
    RulesEngineService.runAssessment input1 = RulesEngineService.runAssessment input2 :=
  congrArg RulesEngineService.runAssessment h

/-- Witness for C9 at the concrete flat-regime input. -/
theorem C9_witness :
    RulesEngineService.runAssessment exInputFlat500k =
      RulesEngineService.runAssessment exInputFlat500k :=
  C9_deterministic exInputFlat500k exInputFlat500k rfl

lemma tc_q1_eq (input : RuleInput) :
    (TaxComputationRule.execute input).quarterlyPayments.q1 =
      round2 ((TaxComputationRule.execute input).netTaxPayable / 4) := rfl

lemma tc_q2_eq (input : RuleInput) :
    (TaxComputationRule.execute input).quarterlyPayments.q2 =
      round2 ((TaxComputationRule.execute input).netTaxPayable / 4) := rfl

lemma tc_q3_eq (input : RuleInput) :
    (TaxComputationRule.execute input).quarterlyPayments.q3 =
      round2 ((TaxComputationRule.execute input).netTaxPayable / 4) := rfl

lemma tc_annual_eq (input : RuleInput) :
    (TaxComputationRule.execute input).quarterlyPayments.annual =
      round2 ((TaxComputationRule.execute input).netTaxPayable -
        (TaxComputationRule.execute input).netTaxPayable / 4 * 3) := rfl

/-- C2 counterexample: for the flat-regime input with gross 250,000.125 the
net tax payable is 0.01; the code's annual true-up (which uses the unrounded
quarterly amount) is 0, differing from the claimed formula
round2(netTaxPayable − round2(netTaxPayable/4)×3) = 0.01, and the four-way
split sums to 0, not to netTaxPayable. -/
theorem C2_counterexample :
    (TaxComputationRule.execute exInputTinyFlat).netTaxPayable = 1 / 100 ∧
      (TaxComputationRule.execute exInputTinyFlat).quarterlyPayments.annual ≠
        round2 ((TaxComputationRule.execute exInputTinyFlat).netTaxPayable -
          round2 ((TaxComputationRule.execute exInputTinyFlat).netTaxPayable / 4) * 3) ∧
      (TaxComputationRule.execute exInputTinyFlat).quarterlyPayments.q1 +
          (TaxComputationRule.execute exInputTinyFlat).quarterlyPayments.q2 +
          (TaxComputationRule.execute exInputTinyFlat).quarterlyPayments.q3 +
          (TaxComputationRule.execute exInputTinyFlat).quarterlyPayments.annual ≠
        (TaxComputationRule.execute exInputTinyFlat).netTaxPayable := by
  decide

/-- C2 amended: q1 = q2 = q3 = round2(netTaxPayable/4) and the annual
true-up is round2(netTaxPayable − (netTaxPayable/4)×3), computed from the
UNROUNDED quarterly amount; consequently the four parts sum to netTaxPayable
exactly when netTaxPayable/4 is a whole number of cents (netTaxPayable = k/25
for an integer k), not for every computed tax. -/
theorem C2_quarterly_breakdown (input : RuleInput) :
    (TaxComputationRule.execute input).quarterlyPayments.q1 =
        round2 ((TaxComputationRule.execute input).netTaxPayable / 4) ∧
      (TaxComputationRule.execute input).quarterlyPayments.q2 =
        round2 ((TaxComputationRule.execute input).netTaxPayable / 4) ∧
      (TaxComputationRule.execute input).quarterlyPayments.q3 =
        round2 ((TaxComputationRule.execute input).netTaxPayable / 4) ∧
      (TaxComputationRule.execute input).quarterlyPayments.annual =
        round2 ((TaxComputationRule.execute input).netTaxPayable -
          (TaxComputationRule.execute input).netTaxPayable / 4 * 3) ∧
      (∀ k : ℤ, (TaxComputationRule.execute input).netTaxPayable = (k : ℚ) / 25 →
        (TaxComputationRule.execute input).quarterlyPayments.q1 +
            (TaxComputationRule.execute input).quarterlyPayments.q2 +
            (TaxComputationRule.execute input).quarterlyPayments.q3 +
            (TaxComputationRule.execute input).quarterlyPayments.annual =
          (TaxComputationRule.execute input).netTaxPayable) := by
  refine ⟨rfl, rfl, rfl, rfl, ?_⟩
  intro k hk
  rw [tc_q1_eq, tc_q2_eq, tc_q3_eq, tc_annual_eq, hk]
  have harg : (k : ℚ) / 25 - (k : ℚ) / 25 / 4 * 3 = (k : ℚ) / 25 / 4 := by ring
  rw [harg]
  have hq : round2 ((k : ℚ) / 25 / 4) = (k : ℚ) / 100 := by
    unfold round2 jsRound
    have h1 : (k : ℚ) / 25 / 4 * 100 + 1 / 2 = (k : ℚ) + 1 / 2 := by ring
    rw [h1, Int.floor_int_add]
    norm_num
  rw [hq]
  ring

/-- Witness for C2 at the 500,000 flat input (netTaxPayable = 20,000, a whole
multiple of 1/25, so the split sums exactly). -/
theorem C2_witness :
    (TaxComputationRule.execute exInputFlat500k).quarterlyPayments.q1 +
        (TaxComputationRule.execute exInputFlat500k).quarterlyPayments.q2 +
        (TaxComputationRule.execute exInputFlat500k).quarterlyPayments.q3 +
        (TaxComputationRule.execute exInputFlat500k).quarterlyPayments.annual =
      (TaxComputationRule.execute exInputFlat500k).netTaxPayable :=
  (C2_quarterly_breakdown exInputFlat500k).2.2.2.2 500000 (by decide)

lemma applicable2551_cons (y : Obligation) (ys : List Obligation) :
    applicable2551 (y :: ys) =
      (if y.formCode = "2551Q" then [y.isApplicable] else []) ++ applicable2551 ys := by
  by_cases h : y.formCode = "2551Q" <;> simp [applicable2551, List.filter_cons, h]

lemma applicable2551_append (a b : List Obligation) :
    applicable2551 (a ++ b) = applicable2551 a ++ applicable2551 b := by
  simp [applicable2551]

lemma applicable2551_enumFrom_map (n : ℕ) (l : List Obligation) :
    applicable2551 ((l.enumFrom n).map
        (fun p => { p.2 with id := "OBL-" ++ toString (p.1 + 1) })) =
      applicable2551 l := by
  induction l generalizing n with
  | nil => rfl
  | cons a l ih =>
      simp only [List.enumFrom, List.map_cons, applicable2551_cons]
      rw [ih]

lemma applicable2551_numberObligations (l : List Obligation) :
    applicable2551 (FilingObligationsRule.numberObligations l) = applicable2551 l :=
  applicable2551_enumFrom_map 0 l

lemma applicable2551_execute (input : RuleInput) :
    applicable2551 (FilingObligationsRule.execute input) =
      (if FilingObligationsRule.requiresPercentageTax input then [true]
        else if input.selectedRegime = some TaxRegime.EIGHT_PERCENT_FLAT then [false]
        else []) := by
  simp only [FilingObligationsRule.execute]
  rw [applicable2551_numberObligations]
  simp only [applicable2551_append, apply_ite applicable2551]
  simp [applicable2551, List.filter_cons]

/-- C6 counterexample: a mixed-income input with GRADUATED_RATES selected
produces no 2551Q obligation record at all, so the graduated half of the
claim fails. -/
theorem C6_counterexample :
    exInputMixedGrad.selectedRegime = some TaxRegime.GRADUATED_RATES ∧
      ¬∃ o ∈ FilingObligationsRule.execute exInputMixedGrad,
          o.formCode = "2551Q" ∧ o.isApplicable = true := by
  decide

/-- C6 amended: under the flat regime the rule always emits exactly one 2551Q
record with isApplicable = false; under graduated rates it emits exactly one
2551Q record with isApplicable = true when the user type is FREELANCER,
SELF_EMPLOYED or MICRO_SMALL_BUSINESS, and emits no 2551Q record for
MIXED_INCOME. -/
theorem C6_percentage_tax_records (input : RuleInput) :
    (input.selectedRegime = some TaxRegime.EIGHT_PERCENT_FLAT →
        applicable2551 (FilingObligationsRule.execute input) = [false]) ∧
      (input.selectedRegime = some TaxRegime.GRADUATED_RATES →
        applicable2551 (FilingObligationsRule.execute input) =
          if input.userType = UserType.MIXED_INCOME then [] else [true]) := by
  constructor
  · intro h
    rw [applicable2551_execute]
    have hreq : FilingObligationsRule.requiresPercentageTax input = false := by
      simp [FilingObligationsRule.requiresPercentageTax, h]
    rw [hreq]
    simp [h]
  · intro h
    rw [applicable2551_execute]
    have hreq : FilingObligationsRule.requiresPercentageTax input =
        !(input.userType = UserType.MIXED_INCOME : Bool) := by
      cases hu : input.userType <;>
        simp [FilingObligationsRule.requiresPercentageTax, h, hu]
    rw [hreq]
    cases hu : input.userType <;> simp [h, hu]

/-- Witness for C6 at the concrete flat-regime input. -/
theorem C6_witness :
    applicable2551 (FilingObligationsRule.execute exInputFlat500k) = [false] :=
  (C6_percentage_tax_records exInputFlat500k).1 (by decide)

lemma mem_ite_nil {α : Type} {c : Prop} [Decidable c] {l : List α} {a : α} :
    a ∈ (if c then l else []) ↔ c ∧ a ∈ l := by
  split_ifs with h <;> simp [h]

lemma numberFlags_map_code (l : List RiskFlag) :
    (RiskAssessmentRule.numberFlags l).map (fun f => f.code) =
      l.map (fun f => f.code) := by
  unfold RiskAssessmentRule.numberFlags
  rw [List.map_map]
  rw [show ((fun f : RiskFlag => f.code) ∘
        fun p : ℕ × RiskFlag => { p.2 with id := "RISK-" ++ toString (p.1 + 1) }) =
      ((fun f : RiskFlag => f.code) ∘ Prod.snd) from rfl]
  rw [← List.map_map, List.enum_map_snd]

lemma recommendation_ne_undetermined (input : RuleInput) :
    (RegimeDeterminationRule.execute input).recommendation ≠ TaxRegime.UNDETERMINED := by
  simp only [RegimeDeterminationRule.execute]
  split_ifs <;> simp

lemma regime_not_selected_not_emitted (input : RuleInput)
    (h : input.selectedRegime ≠ some TaxRegime.UNDETERMINED) :
    "REGIME_NOT_SELECTED" ∉ (RiskAssessmentRule.execute input).map (fun f => f.code) := by
  simp only [RiskAssessmentRule.execute]
  rw [numberFlags_map_code]
  simp only [List.map_append, apply_ite (List.map (fun f : RiskFlag => f.code)),
    List.map_cons, List.map_nil, List.mem_append, mem_ite_nil]
  simp [h]

set_option maxHeartbeats 1000000 in
/-- C10: the riskFlags list in the AssessmentOutput returned by runAssessment
never contains a flag coded REGIME_NOT_SELECTED: risk assessment runs on the
effective input, whose selectedRegime is never the UNDETERMINED sentinel
(a concrete user selection, the absent value, or the regime rule's
recommendation, which is always a concrete regime). -/
theorem C10_no_regime_not_selected_flag (input : RuleInput) :
    ∀ f ∈ (RulesEngineService.runAssessment input).riskFlags,
      f.code ≠ "REGIME_NOT_SELECTED" := by
  intro f hf hcode
  have hrisk : (RulesEngineService.runAssessment input).riskFlags =
      RiskAssessmentRule.execute
        { input with selectedRegime :=
            if input.selectedRegime ≠ some TaxRegime.UNDETERMINED then input.selectedRegime
            else some (RegimeDeterminationRule.execute input).recommendation } := rfl
  have heff :
      (if input.selectedRegime ≠ some TaxRegime.UNDETERMINED then input.selectedRegime
        else some (RegimeDeterminationRule.execute input).recommendation) ≠
        some TaxRegime.UNDETERMINED := by
    split_ifs with hsel
    · exact hsel
    · intro hcontra
      exact recommendation_ne_undetermined input (Option.some_injective _ hcontra)
  have hnot := regime_not_selected_not_emitted
    { input with selectedRegime :=
        if input.selectedRegime ≠ some TaxRegime.UNDETERMINED then input.selectedRegime
        else some (RegimeDeterminationRule.execute input).recommendation } heff
  rw [hrisk] at hf
  exact hnot (hcode ▸ List.mem_map_of_mem (fun g => g.code) hf)

/-- Witness for C10: the mixed-income example emits the MISSING_2307 flag,
whose code is not REGIME_NOT_SELECTED. -/
theorem C10_witness : exRiskFlagMissing2307.code ≠ "REGIME_NOT_SELECTED" :=
  C10_no_regime_not_selected_flag exInputMixedTest exRiskFlagMissing2307 (by decide)

lemma mem_numberDeadlines {d : Deadline} {l : List Deadline}
    (h : d ∈ DeadlineCalculationRule.numberDeadlines l) :
    ∃ d0 ∈ l, d.formCode = d0.formCode ∧ d.dueDate = d0.dueDate ∧
      d.reminderDays = d0.reminderDays := by
  unfold DeadlineCalculationRule.numberDeadlines at h
  rcases List.mem_map.mp h with ⟨p, hp, rfl⟩
  refine ⟨p.2, ?_, rfl, rfl, rfl⟩
  have h2 := List.mem_map_of_mem Prod.snd hp
  rwa [List.enum_map_snd] at h2

/-- C7 counterexample: for the registered 500,000 flat-regime input (tax year
2024), the deadline list contains a 0605 deadline that is not due on the
weekend-adjusted January 31 of the tax year (the generic annual branch also
fires for 0605 and emits an April 15 deadline of the following year). -/
theorem C7_counterexample :
    ∃ d ∈ DeadlineCalculationRule.execute exInputFlat500k
        (FilingObligationsRule.execute exInputFlat500k),
      d.formCode = "0605" ∧
        d.dueDate ≠ isoOfDays (DeadlineCalculationRule.adjustForWeekend
          (daysFromCivil exInputFlat500k.taxYear 1 31)) := by
  decide

/-- C7 amended: every 0605 deadline is due either on the weekend-adjusted
January 31 of the tax year (the special-case branch) or on the generic annual
due date, April 15 of the following year (0605 obligations carry annual
frequency, so the generic branch also fires); every 1901 deadline either
carries the sentinel "ASAP" with an empty reminder list (the special-case
branch) or is the generic annual April 15 deadline. -/
theorem C7_special_form_deadlines (input : RuleInput) (obligations : List Obligation) :
    ∀ d ∈ DeadlineCalculationRule.execute input obligations,
      (d.formCode = "0605" →
        d.dueDate = isoOfDays (DeadlineCalculationRule.adjustForWeekend
            (daysFromCivil input.taxYear 1 31)) ∨
          d.dueDate = isoOfDays (DeadlineCalculationRule.calculateDueDate
            (input.taxYear + 1) 4 15 "ANNUAL")) ∧
      (d.formCode = "1901" →
        (d.dueDate = "ASAP" ∧ d.reminderDays = []) ∨
          d.dueDate = isoOfDays (DeadlineCalculationRule.calculateDueDate
            (input.taxYear + 1) 4 15 "ANNUAL")) := by
  intro d hd
  simp only [DeadlineCalculationRule.execute] at hd
  rw [List.mem_insertionSort] at hd
  obtain ⟨d0, hd0mem, hfc, hdd, hrd⟩ := mem_numberDeadlines hd
  rw [hfc, hdd, hrd]
  rcases List.mem_flatMap.mp hd0mem with ⟨ob, _hob, hmem⟩
  simp only [DeadlineCalculationRule.deadlinesFor] at hmem
  rcases List.mem_append.mp hmem with hmemA | hmem4
  · rcases List.mem_append.mp hmemA with hmemB | hmem3
    · rcases List.mem_append.mp hmemB with hmem1 | hmem2
      · -- quarterly segment
        rcases hcfg : FILING_DEADLINES ob.formCode with _ | c
        · simp only [hcfg] at hmem1
          simp at hmem1
        · simp only [hcfg] at hmem1
          by_cases hfreq : ob.frequency = "quarterly"
          · rw [if_pos hfreq] at hmem1
            have hfc0 : d0.formCode = ob.formCode := by
              simp only [List.mem_cons, List.not_mem_nil, or_false] at hmem1
              rcases hmem1 with rfl | rfl | rfl <;> rfl
            constructor
            · intro h0605
              rw [hfc0] at h0605
              rw [h0605] at hcfg
              simp [FILING_DEADLINES] at hcfg
            · intro h1901
              rw [hfc0] at h1901
              rw [h1901] at hcfg
              simp [FILING_DEADLINES] at hcfg
          · rw [if_neg hfreq] at hmem1
            simp at hmem1
      · -- generic annual segment
        rw [mem_ite_nil] at hmem2
        obtain ⟨_hcond, hmem2⟩ := hmem2
        simp only [List.mem_cons, List.not_mem_nil, or_false] at hmem2
        subst hmem2
        constructor
        · intro h0605
          right
          simp only at h0605
          simp [h0605, FILING_DEADLINES]
        · intro h1901
          right
          simp only at h1901
          simp [h1901, FILING_DEADLINES]
    · -- special 0605 segment
      rw [mem_ite_nil] at hmem3
      obtain ⟨_hcond, hmem3⟩ := hmem3
      simp only [List.mem_cons, List.not_mem_nil, or_false] at hmem3
      subst hmem3
      constructor
      · intro _
        left
        rfl
      · intro h1901
        simp at h1901
  · -- special 1901 segment
    rw [mem_ite_nil] at hmem4
    obtain ⟨_hcond, hmem4⟩ := hmem4
    simp only [List.mem_cons, List.not_mem_nil, or_false] at hmem4
    subst hmem4
    constructor
    · intro h0605
      simp at h0605
    · intro _
      left
      exact ⟨rfl, rfl⟩

/-- Witness for C7: the special-case 0605 deadline of the concrete example
satisfies the amended disjunction. -/
theorem C7_witness :
    exDeadline0605.dueDate =
        isoOfDays (DeadlineCalculationRule.adjustForWeekend
          (daysFromCivil exInputFlat500k.taxYear 1 31)) ∨
      exDeadline0605.dueDate = isoOfDays (DeadlineCalculationRule.calculateDueDate
        (exInputFlat500k.taxYear + 1) 4 15 "ANNUAL") :=
  (C7_special_form_deadlines exInputFlat500k (FilingObligationsRule.execute exInputFlat500k)
      exDeadline0605 (by decide)).1 (by decide)

end PhTax
